import Mathlib

/-!
Verification of the realtime-chat server core against its specification.

The definitions below are a shallow embedding of the TypeScript backend:

* `WebSocketService` (socket event handlers, in-memory typing map, per-socket
  rate limiter closure) — embedded as pure functions from a `WSState` plus the
  event payload to a new `WSState` together with an ordered list of `Effect`s.
  Each `Effect` constructor corresponds to one observable action of the
  handler body: a `socket.emit` to the sender, a `socket.to(room).emit`
  broadcast, an `io.to(room).emit` broadcast, or a Redis/database side effect.
* `MessageService` (`createMessage`, `updateMessage`, `deleteMessage`,
  `getMessageById`, `validateUserInRoom`) and `RoomService` (`joinRoom`,
  `leaveRoom`) — embedded as functions on an explicit relational state
  `ChatDB`, returning `Except String` to mirror thrown `Error`s.
* `RedisService` presence keys (`setEx` with a 30 second TTL, `del`, `get`) —
  embedded as an association list from user id to record plus expiry instant.

Times are natural numbers in milliseconds (`Date.now()` style).  The Redis
message-history cache and the `users` table join are not modelled: no stated
property depends on them.  Database infrastructure failure of the message
`INSERT` is modelled by the `insertOk` flag of `createMessage`; when it is
`false` the insert throws, mirrored by `.error "insert failed"` (the concrete
message text of the driver error is abstracted).
-/

namespace Chat

/-- One user's presence record, as stored under `presence:user:{userId}`
(`RedisService.setUserPresence`). -/
structure PresenceRecord where
  userId : String
  status : String
  currentRoom : Option String
  lastActivity : Nat
  connectionId : String
deriving DecidableEq

/-- The presence store: user id ↦ (record, expiry instant).  `setEx key 30`
stores the record with a 30000 ms time to live. -/
abbrev PresenceStore := List (String × PresenceRecord × Nat)

/-- `RedisService.setUserPresence`: upsert with a refreshed 30 s TTL. -/
def setUserPresence (store : PresenceStore) (p : PresenceRecord) (now : Nat) : PresenceStore :=
  (p.userId, p, now + 30000) :: store.filter (fun e => e.1 != p.userId)

/-- Raw lookup of the stored entry for a user (ignoring expiry). -/
def lookupPresence (store : PresenceStore) (userId : String) : Option (PresenceRecord × Nat) :=
  (store.find? (fun e => e.1 == userId)).map (fun e => e.2)

/-- `RedisService.getUserPresence`: Redis returns `null` once the TTL has
elapsed, so the read is time dependent. -/
def getUserPresence (store : PresenceStore) (userId : String) (now : Nat) :
    Option PresenceRecord :=
  match lookupPresence store userId with
  | none => none
  | some e => if now < e.2 then some e.1 else none

/-- `RedisService.updateUserActivity`: refresh `lastActivity` and force status
`online`, but only when an unexpired record exists. -/
def updateUserActivity (store : PresenceStore) (userId : String) (now : Nat) : PresenceStore :=
  match getUserPresence store userId now with
  | none => store
  | some p =>
      setUserPresence store { p with lastActivity := now, status := "online" } now

/-- A row of `chat_rooms` (fields not touched by any handler are elided). -/
structure Room where
  id : String
  rtype : String
  ownerId : String
  updatedAt : Nat
deriving DecidableEq

/-- A row of `room_memberships` (named `RoomMembership` in the TS models). -/
structure RoomMembership where
  id : Nat
  userId : String
  roomId : String
  role : String
  joinedAt : Nat
  lastReadAt : Option Nat
  notifications : Bool
deriving DecidableEq

/-- A row of `messages`.  `metadata` is the serialized JSON string the code
stores via `JSON.stringify`. -/
structure MessageRow where
  id : Nat
  roomId : String
  userId : String
  content : String
  mtype : String
  metadata : String
  createdAt : Nat
  editedAt : Option Nat
deriving DecidableEq

/-- The relational store (`chat_rooms`, `room_memberships`, `messages`), with
the serial-id sequences made explicit. -/
structure ChatDB where
  rooms : List Room
  memberships : List RoomMembership
  messages : List MessageRow
  nextMessageId : Nat
  nextMembershipId : Nat
deriving DecidableEq

/-- An empty database (fresh sequences start at 1). -/
def emptyDb : ChatDB := ⟨[], [], [], 1, 1⟩

/-- One window of `createRateLimiter`'s `limits[key]` object:
`{ count, resetTime }`. -/
structure RateWindow where
  count : Nat
  resetTime : Nat
deriving DecidableEq

/-- The `limits` object of the rate limiter closure: key ↦ window. -/
abbrev RateLimits := List (String × RateWindow)

/-- The per-action thresholds of `createRateLimiter` (default 100). -/
def actionLimits (action : String) : Nat :=
  if action = "send_message" then 30
  else if action = "join_room" then 10
  else if action = "update_presence" then 60
  else if action = "start_typing" then 20
  else 100

/-- Read `limits[key]`. -/
def lookupWindow (limits : RateLimits) (key : String) : Option RateWindow :=
  (limits.find? (fun e => e.1 == key)).map (fun e => e.2)

/-- Assign `limits[key] = w`. -/
def setWindow (limits : RateLimits) (key : String) (w : RateWindow) : RateLimits :=
  (key, w) :: limits.filter (fun e => e.1 != key)

/-- One invocation of the closure returned by
`WebSocketService.createRateLimiter`: `true` means allowed.  A fresh or
elapsed window is reset to `{count: 1, resetTime: now + 60000}`; otherwise the
call is rejected when `count` has reached the action's threshold, and the
count is incremented when allowed. -/
def rateStep (limits : RateLimits) (socketId action : String) (now : Nat) :
    Bool × RateLimits :=
  let key := socketId ++ ":" ++ action
  match lookupWindow limits key with
  | none => (true, setWindow limits key ⟨1, now + 60000⟩)
  | some w =>
      if w.resetTime < now then (true, setWindow limits key ⟨1, now + 60000⟩)
      else if actionLimits action ≤ w.count then (false, limits)
      else (true, setWindow limits key ⟨w.count + 1, w.resetTime⟩)

/-- Iterate the rate limiter over a list of call instants, collecting the
allow/deny answers. -/
def rateRun (limits : RateLimits) (socketId action : String) : List Nat → List Bool × RateLimits
  | [] => ([], limits)
  | t :: ts =>
      let p := rateStep limits socketId action t
      let q := rateRun p.2 socketId action ts
      (p.1 :: q.1, q.2)

/-- One entry of the in-memory `typingUsers[roomId][userId]` map.  The
`setTimeout(…, 3000)` auto-clear timer is modelled by its deadline. -/
structure TypingEntry where
  username : String
  expiresAt : Nat
deriving DecidableEq

/-- The `typingUsers` map, keyed by (room id, user id). -/
abbrev TypingMap := List ((String × String) × TypingEntry)

/-- Lookup a typing entry for (room, user). -/
def lookupTyping (typing : TypingMap) (roomId userId : String) : Option TypingEntry :=
  (typing.find? (fun e => e.1.1 == roomId && e.1.2 == userId)).map (fun e => e.2)

/-- `WebSocketService.cleanupTypingForUser`: delete every entry owned by the
user (clearing its timer); the code broadcasts nothing here. -/
def cleanupTypingForUser (typing : TypingMap) (userId : String) : TypingMap :=
  typing.filter (fun e => e.1.2 != userId)

/-- The authenticated socket (`AuthenticatedSocket`): socket id plus the user
attached by the auth middleware. -/
structure SocketInfo where
  id : String
  userId : String
  username : String
deriving DecidableEq

/-- Observable actions of a handler body, in execution order: `socket.emit`
(to the sender), `socket.to(room).emit` (to the room minus the sender),
`io.to(room).emit` (to the whole room), Redis writes, and the rate limiter
consultation performed by `checkRateLimit`. -/
inductive Effect where
  | rateCheck (action : String) (allowed : Bool)
  | rateLimitExceeded (retryAfter : Nat) (endpoint : String)
  | sendMessageError (reason message : String)
  | messageSent (messageId : Nat) (roomId : String)
  | messageReceived (messageId : Nat) (roomId content mtype authorId authorName : String)
  | joinRoomError (reason message : String)
  | roomJoined (roomId : String)
  | userJoined (roomId userId : String)
  | leaveRoomError (reason message : String)
  | roomLeft (roomId : String)
  | userLeft (roomId userId : String)
  | editMessageError (reason : String)
  | messageEdited (messageId : Nat) (content : String) (editedAt : Nat)
  | messageUpdated (messageId : Nat) (content : String) (editedAt : Nat) (roomId : String)
  | deleteMessageError (reason : String)
  | messageDeleted (messageId : Nat)
  | messageRemoved (messageId : Nat) (roomId : String)
  | updatePresenceError (reason : String)
  | presenceUpdated (status : String)
  | presenceChanged (roomId userId status : String)
  | userTyping (roomId userId username : String)
  | userStoppedTyping (roomId userId : String)
  | redisSetPresence (userId status : String)
  | redisRemovePresence (userId : String)
  | redisRemoveUserFromRoom (userId roomId : String)
  | redisRemoveSession (connectionId : String)
  | redisUpdateActivity (userId : String)
deriving DecidableEq

/-- Does the handler consult the rate limiter here? -/
def Effect.isRateCheck : Effect → Bool
  | .rateCheck _ _ => true
  | _ => false

/-- Is this a `user_typing` broadcast? -/
def Effect.isUserTyping : Effect → Bool
  | .userTyping _ _ _ => true
  | _ => false

/-- Is this a `user_stopped_typing` broadcast? -/
def Effect.isUserStoppedTyping : Effect → Bool
  | .userStoppedTyping _ _ => true
  | _ => false

/-- Is this a `message_received` fan-out to the room? -/
def Effect.isMessageReceived : Effect → Bool
  | .messageReceived _ _ _ _ _ _ => true
  | _ => false

/-- The mutable state reachable from one `WebSocketService` instance: the
relational store, the Redis presence keys, the in-memory `typingUsers` map,
and the rate limiter windows of the socket's limiter closure. -/
structure WSState where
  db : ChatDB
  presence : PresenceStore
  typingUsers : TypingMap
  rateLimits : RateLimits
deriving DecidableEq

/-- `MessageService.validateUserInRoom` succeeds exactly when a
`room_memberships` row for (user, room) exists. -/
def findUserMembership (db : ChatDB) (userId roomId : String) : Option RoomMembership :=
  db.memberships.find? (fun x => x.userId == userId && x.roomId == roomId)

/-- `MessageService.createMessage`: validate membership (throwing
`User is not a member of this room` otherwise), insert the message row,
and touch the room's `updated_at`.  `insertOk = false` models the `INSERT`
throwing for infrastructure reasons. -/
def createMessage (db : ChatDB) (roomId userId content mtype metadata : String)
    (now : Nat) (insertOk : Bool) : Except String (MessageRow × ChatDB) :=
  match findUserMembership db userId roomId with
  | none => .error "User is not a member of this room"
  | some _ =>
      if insertOk then
        let msg : MessageRow :=
          ⟨db.nextMessageId, roomId, userId, content, mtype, metadata, now, none⟩
        .ok (msg,
          { db with
            messages := db.messages ++ [msg]
            nextMessageId := db.nextMessageId + 1
            rooms := db.rooms.map (fun rm =>
              if rm.id == roomId then { rm with updatedAt := now } else rm) })
      else .error "insert failed"

/-- `MessageService.getMessageById` (the `users` join only contributes the
author's display name, which is not modelled). -/
def getMessageById (db : ChatDB) (messageId : Nat) : Option MessageRow :=
  db.messages.find? (fun x => x.id == messageId)

/-- `MessageService.updateMessage`: ownership check, 24 h editability window,
then `UPDATE … SET content = COALESCE($1, content), metadata = COALESCE($2,
metadata), edited_at = NOW()`.  Returns the updated row. -/
def updateMessage (db : ChatDB) (messageId : Nat) (userId : String)
    (newContent newMetadata : Option String) (now : Nat) :
    Except String (MessageRow × ChatDB) :=
  match getMessageById db messageId with
  | none => .error "Message not found"
  | some msg =>
      if msg.userId ≠ userId then .error "Not authorized to edit this message"
      else if 86400000 < now - msg.createdAt then .error "Message too old to edit"
      else
        let upd := fun (x : MessageRow) =>
          if x.id == messageId then
            { x with
              content := newContent.getD x.content
              metadata := newMetadata.getD x.metadata
              editedAt := some now }
          else x
        .ok (upd msg, { db with messages := db.messages.map upd })

/-- `MessageService.deleteMessage`: ownership/admin check, then the soft
delete `UPDATE messages SET content = '[Message deleted]', type = 'system',
edited_at = NOW() WHERE id = $1` — the row is never removed. -/
def deleteMessage (db : ChatDB) (messageId : Nat) (userId : String)
    (isAdmin : Bool) (now : Nat) : Except String ChatDB :=
  match db.messages.find? (fun x => x.id == messageId) with
  | none => .error "Message not found"
  | some msg =>
      if msg.userId ≠ userId ∧ isAdmin = false then
        .error "Not authorized to delete this message"
      else
        .ok { db with
          messages := db.messages.map (fun x =>
            if x.id == messageId then
              { x with content := "[Message deleted]", mtype := "system", editedAt := some now }
            else x) }

/-- `RoomService.joinRoom`: an existing membership is returned unchanged
(idempotent early return); otherwise the room must exist and be joinable, and
a fresh membership row is inserted.  (The Redis `room:participants` mirror is
modelled at effect level in the socket handlers, not here.) -/
def joinRoom (db : ChatDB) (userId roomId role : String) (now : Nat) :
    Except String (RoomMembership × ChatDB) :=
  match findUserMembership db userId roomId with
  | some m => .ok (m, db)
  | none =>
      match db.rooms.find? (fun x => x.id == roomId) with
      | none => .error "Room not found"
      | some room =>
          if room.rtype == "private" then
            .error "Cannot join private room without invitation"
          else
            let m : RoomMembership :=
              ⟨db.nextMembershipId, userId, roomId, role, now, none, true⟩
            .ok (m,
              { db with
                memberships := db.memberships ++ [m]
                nextMembershipId := db.nextMembershipId + 1
                rooms := db.rooms.map (fun rm =>
                  if rm.id == roomId then { rm with updatedAt := now } else rm) })

/-- The `ORDER BY role DESC, joined_at ASC LIMIT 1` choice of a new owner in
`RoomService.leaveRoom`: string-descending on role, then ascending join time
(ties resolved by row order, as in SQL). -/
def pickBetter (b m : RoomMembership) : RoomMembership :=
  if b.role < m.role then m
  else if b.role = m.role ∧ m.joinedAt < b.joinedAt then m
  else b

/-- Fold the successor choice over the candidate rows. -/
def ownerSuccessor (cands : List RoomMembership) : Option RoomMembership :=
  cands.foldl
    (fun acc m =>
      match acc with
      | none => some m
      | some b => some (pickBetter b m))
    none

/-- `RoomService.leaveRoom`: requires membership; an owner first transfers
ownership to the best admin/member candidate (if any); then the membership
row is deleted.  (The Redis `sRem` mirror is an effect of the socket
handlers.) -/
def leaveRoom (db : ChatDB) (userId roomId : String) : Except String ChatDB :=
  match findUserMembership db userId roomId with
  | none => .error "User is not a member of this room"
  | some m =>
      let db1 :=
        if m.role = "owner" then
          let cands := db.memberships.filter (fun x =>
            x.roomId == roomId && x.userId != userId &&
              (x.role == "admin" || x.role == "member"))
          match ownerSuccessor cands with
          | some newOwner =>
              { db with
                memberships := db.memberships.map (fun x =>
                  if x.userId == newOwner.userId && x.roomId == roomId then
                    { x with role := "owner" }
                  else x)
                rooms := db.rooms.map (fun rm =>
                  if rm.id == roomId then { rm with ownerId := newOwner.userId } else rm) }
          | none => db
        else db
      .ok { db1 with
        memberships := db1.memberships.filter (fun x =>
          !(x.userId == userId && x.roomId == roomId)) }

/-- `RoomService.getUserRooms`, restricted to the room ids (the only part the
socket handlers use for iteration; the `ORDER BY updated_at DESC` ordering is
irrelevant to every stated property, which are per-room). -/
def userRoomIds (db : ChatDB) (userId : String) : List String :=
  (db.memberships.filter (fun m => m.userId == userId)).map (fun m => m.roomId)

/-- `WebSocketService.handleSendMessage`: rate limit check first (emitting
`rate_limit_exceeded` and returning on denial), then the JS-falsy check on
`roomId`/`content`, then `createMessage` (whose thrown error becomes
`send_message_error{error: send_failed}` in the catch), and on success
`updateUserActivity`, the `message_sent` ack to the sender, and the
`message_received` broadcast to the room minus the sender. -/
def handleSendMessage (st : WSState) (sock : SocketInfo)
    (roomId content mtype metadata : String) (now : Nat) (insertOk : Bool) :
    WSState × List Effect :=
  let rl := rateStep st.rateLimits sock.id "send_message" now
  let st1 := { st with rateLimits := rl.2 }
  if rl.1 = false then
    (st1, [.rateCheck "send_message" false, .rateLimitExceeded 60 "send_message"])
  else if roomId == "" || content == "" then
    (st1, [.rateCheck "send_message" true,
           .sendMessageError "missing_required_fields" "Room ID and content are required"])
  else
    match createMessage st1.db roomId sock.userId content.trim mtype metadata now insertOk with
    | .error e =>
        (st1, [.rateCheck "send_message" true, .sendMessageError "send_failed" e])
    | .ok (msg, db) =>
        ({ st1 with db := db, presence := updateUserActivity st1.presence sock.userId now },
         [.rateCheck "send_message" true,
          .redisUpdateActivity sock.userId,
          .messageSent msg.id msg.roomId,
          .messageReceived msg.id msg.roomId msg.content msg.mtype sock.userId sock.username])

/-- `WebSocketService.handleJoinRoom`: rate limit check, missing-id check,
`roomService.joinRoom` (thrown errors become `join_room_error{join_failed}`),
then the `room_joined` response and the `user_joined` broadcast.  The
`getRoomById` re-read feeding the response can be `null` for a stale
membership of a deleted room, making the `room!.id` access throw into the
catch. -/
def handleJoinRoom (st : WSState) (sock : SocketInfo) (roomId : String) (now : Nat) :
    WSState × List Effect :=
  let rl := rateStep st.rateLimits sock.id "join_room" now
  let st1 := { st with rateLimits := rl.2 }
  if rl.1 = false then
    (st1, [.rateCheck "join_room" false, .rateLimitExceeded 60 "join_room"])
  else if roomId == "" then
    (st1, [.rateCheck "join_room" true, .joinRoomError "missing_room_id" "Room ID is required"])
  else
    match joinRoom st1.db sock.userId roomId "member" now with
    | .error e =>
        (st1, [.rateCheck "join_room" true, .joinRoomError "join_failed" e])
    | .ok (_, db) =>
        match db.rooms.find? (fun x => x.id == roomId) with
        | none =>
            ({ st1 with db := db },
             [.rateCheck "join_room" true, .joinRoomError "join_failed" "room lookup failed"])
        | some _ =>
            ({ st1 with db := db },
             [.rateCheck "join_room" true, .roomJoined roomId, .userJoined roomId sock.userId])

/-- `WebSocketService.handleLeaveRoom`: missing-id check, `roomService
.leaveRoom` (thrown errors become `leave_room_error{leave_failed}`), then the
`room_left` response and the `user_left` broadcast.  Note: no rate limit
check appears in this handler. -/
def handleLeaveRoom (st : WSState) (sock : SocketInfo) (roomId : String) :
    WSState × List Effect :=
  if roomId == "" then
    (st, [.leaveRoomError "missing_room_id" "Room ID is required"])
  else
    match leaveRoom st.db sock.userId roomId with
    | .error e => (st, [.leaveRoomError "leave_failed" e])
    | .ok db =>
        ({ st with db := db }, [.roomLeft roomId, .userLeft roomId sock.userId])

/-- `WebSocketService.handleEditMessage`: missing-field check, `messageService
.updateMessage` (thrown errors become `edit_message_error{edit_failed}`), then
the `message_edited` response and the `message_updated` broadcast to the whole
room.  Note: no rate limit check appears in this handler. -/
def handleEditMessage (st : WSState) (sock : SocketInfo)
    (messageId : Option Nat) (content : String) (now : Nat) : WSState × List Effect :=
  if messageId.isNone || content == "" then
    (st, [.editMessageError "missing_required_fields"])
  else
    match updateMessage st.db (messageId.getD 0) sock.userId (some content.trim) none now with
    | .error _ => (st, [.editMessageError "edit_failed"])
    | .ok (msg, db) =>
        ({ st with db := db },
         [.messageEdited msg.id msg.content now,
          .messageUpdated msg.id msg.content now msg.roomId])

/-- `WebSocketService.handleDeleteMessage`: missing-id check, `getMessageById`
pre-read (for the room id of the broadcast), `messageService.deleteMessage`
(thrown errors become `delete_message_error{delete_failed}`), then the
`message_deleted` response and the `message_removed` broadcast to the whole
room.  Note: no rate limit check appears in this handler. -/
def handleDeleteMessage (st : WSState) (sock : SocketInfo)
    (messageId : Option Nat) (now : Nat) : WSState × List Effect :=
  match messageId with
  | none => (st, [.deleteMessageError "missing_message_id"])
  | some mid =>
      match getMessageById st.db mid with
      | none => (st, [.deleteMessageError "message_not_found"])
      | some msg =>
          match deleteMessage st.db mid sock.userId false now with
          | .error _ => (st, [.deleteMessageError "delete_failed"])
          | .ok db =>
              ({ st with db := db },
               [.messageDeleted mid, .messageRemoved mid msg.roomId])

/-- `WebSocketService.handleUpdatePresence`: rate limit check, status
whitelist, then `redis.setUserPresence` (for every accepted status, including
`offline`), the `presence_updated` ack, and a `presence_changed` broadcast to
each of the user's rooms. -/
def handleUpdatePresence (st : WSState) (sock : SocketInfo)
    (status : String) (currentRoom : Option String) (now : Nat) : WSState × List Effect :=
  let rl := rateStep st.rateLimits sock.id "update_presence" now
  let st1 := { st with rateLimits := rl.2 }
  if rl.1 = false then
    (st1, [.rateCheck "update_presence" false, .rateLimitExceeded 60 "update_presence"])
  else if ¬ (status = "online" ∨ status = "away" ∨ status = "offline") then
    (st1, [.rateCheck "update_presence" true, .updatePresenceError "invalid_status"])
  else
    let p : PresenceRecord := ⟨sock.userId, status, currentRoom, now, sock.id⟩
    ({ st1 with presence := setUserPresence st1.presence p now },
     [.rateCheck "update_presence" true,
      .redisSetPresence sock.userId status,
      .presenceUpdated status]
       ++ (userRoomIds st1.db sock.userId).map
            (fun r => .presenceChanged r sock.userId status))

/-- `WebSocketService.handleStartTyping`: rate limit check, silent return on a
missing room id, then unconditionally clear any previous timer, upsert the
entry with a fresh 3000 ms auto-clear deadline, and broadcast `user_typing`
to the room minus the sender — the broadcast is not guarded by the entry
being new. -/
def handleStartTyping (st : WSState) (sock : SocketInfo) (roomId : String) (now : Nat) :
    WSState × List Effect :=
  let rl := rateStep st.rateLimits sock.id "start_typing" now
  let st1 := { st with rateLimits := rl.2 }
  if rl.1 = false then
    (st1, [.rateCheck "start_typing" false, .rateLimitExceeded 60 "start_typing"])
  else if roomId == "" then
    (st1, [.rateCheck "start_typing" true])
  else
    ({ st1 with
       typingUsers :=
         ((roomId, sock.userId), (⟨sock.username, now + 3000⟩ : TypingEntry)) ::
           st1.typingUsers.filter (fun e => !(e.1.1 == roomId && e.1.2 == sock.userId)) },
     [.rateCheck "start_typing" true, .userTyping roomId sock.userId sock.username])

/-- `WebSocketService.handleStopTyping`: silent return when the room id is
missing or no entry exists; otherwise clear the timer, delete the entry, and
broadcast `user_stopped_typing`. -/
def handleStopTyping (st : WSState) (sock : SocketInfo) (roomId : String) :
    WSState × List Effect :=
  if roomId == "" then (st, [])
  else
    match lookupTyping st.typingUsers roomId sock.userId with
    | none => (st, [])
    | some _ =>
        ({ st with
           typingUsers :=
             st.typingUsers.filter (fun e => !(e.1.1 == roomId && e.1.2 == sock.userId)) },
         [.userStoppedTyping roomId sock.userId])

/-- `WebSocketService.handleDisconnection`: remove the presence record, then
for each of the user's rooms remove the Redis participant entry and broadcast
`user_left`, then `cleanupTypingForUser` (which emits nothing), then remove
the session key.  The effect list is in execution order. -/
def handleDisconnection (st : WSState) (sock : SocketInfo) : WSState × List Effect :=
  let rooms := userRoomIds st.db sock.userId
  ({ st with
     presence := st.presence.filter (fun e => e.1 != sock.userId)
     typingUsers := cleanupTypingForUser st.typingUsers sock.userId },
   .redisRemovePresence sock.userId ::
     (rooms.flatMap (fun r => [.redisRemoveUserFromRoom sock.userId r, .userLeft r sock.userId]))
     ++ [.redisRemoveSession sock.id])

/-- A small sample database used by concrete witnesses: one public room
`general` owned by `u1`, who is its only member, and one message by `u1`. -/
def sampleDb : ChatDB :=
  ⟨[⟨"general", "public", "u1", 0⟩],
   [⟨1, "u1", "general", "owner", 0, none, true⟩],
   [⟨1, "general", "u1", "hi", "text", "", 0, none⟩], 2, 2⟩

/-- Claim C1 is false on the code: with an existing, unexpired typing entry for
(user `u1`, room `room1`) — created at time 0, so its auto-clear deadline is
3000 — a repeated `start_typing` at time 1000 broadcasts `user_typing` again,
so two accepted signals inside the 3-second window produce two broadcasts,
not one. -/
theorem c1_counterexample :
    let sock : SocketInfo := ⟨"s1", "u1", "alice"⟩
    let r1 := handleStartTyping ⟨emptyDb, [], [], []⟩ sock "room1" 0
    let r2 := handleStartTyping r1.1 sock "room1" 1000
    lookupTyping r1.1.typingUsers "room1" "u1" = some ⟨"alice", 3000⟩
      ∧ r2.2.countP Effect.isUserTyping = 1
      ∧ (r1.2 ++ r2.2).countP Effect.isUserTyping = 2 := by
  decide

/-- Claim C2 is false on the code: for a room member whose message `INSERT`
fails, `handleSendMessage` lands in the catch block and emits only the hard
`send_message_error{send_failed}` — there is no `message_received` fan-out to
the room and no distinct persistence warning. -/
theorem c2_counterexample :
    let db : ChatDB :=
      ⟨[⟨"general", "public", "u1", 0⟩], [⟨1, "u1", "general", "owner", 0, none, true⟩], [], 1, 2⟩
    let r := handleSendMessage ⟨db, [], [], []⟩ ⟨"s1", "u1", "alice"⟩ "general" "hi" "text" "" 5 false
    r.2 = [.rateCheck "send_message" true, .sendMessageError "send_failed" "insert failed"]
      ∧ r.2.countP Effect.isMessageReceived = 0
      ∧ r.1.db = db := by
  decide

/-- Claim C3 is false on the code: disconnecting a user who holds typing
entries in two rooms removes both entries (via `cleanupTypingForUser`) but
broadcasts zero `user_stopped_typing` events. -/
theorem c3_counterexample :
    let st : WSState :=
      ⟨⟨[⟨"general", "public", "u1", 0⟩], [⟨1, "u1", "general", "owner", 0, none, true⟩], [], 1, 2⟩,
       [("u1", ⟨"u1", "online", none, 0, "s1"⟩, 30000)],
       [(("general", "u1"), ⟨"alice", 3000⟩), (("other", "u1"), ⟨"alice", 2000⟩)], []⟩
    let r := handleDisconnection st ⟨"s1", "u1", "alice"⟩
    lookupTyping r.1.typingUsers "general" "u1" = none
      ∧ lookupTyping r.1.typingUsers "other" "u1" = none
      ∧ r.2.countP Effect.isUserStoppedTyping = 0 := by
  decide

/-- Claim C4 is false on the code: a client `update_presence` with status
`offline` goes through `redis.setUserPresence`, so after the transition a
presence record for the user does exist, with status field `"offline"` (and a
refreshed 30 s TTL) — it is not deleted. -/
theorem c4_counterexample :
    let db : ChatDB :=
      ⟨[⟨"general", "public", "u1", 0⟩], [⟨1, "u1", "general", "owner", 0, none, true⟩], [], 1, 2⟩
    let r := handleUpdatePresence ⟨db, [], [], []⟩ ⟨"s1", "u1", "alice"⟩ "offline" none 7
    lookupPresence r.1.presence "u1" = some (⟨"u1", "offline", none, 7, "s1"⟩, 30007) := by
  decide

/-- Claim C5 is false on the code: `handleLeaveRoom` deletes the membership
row (a state mutation) while its effect trace contains no rate limiter
consultation at all. -/
theorem c5_counterexample :
    let db : ChatDB :=
      ⟨[⟨"r1", "public", "u2", 0⟩],
       [⟨1, "u2", "r1", "owner", 0, none, true⟩, ⟨2, "u1", "r1", "member", 0, none, true⟩], [], 1, 3⟩
    let r := handleLeaveRoom ⟨db, [], [], []⟩ ⟨"s1", "u1", "alice"⟩ "r1"
    findUserMembership r.1.db "u1" "r1" = none
      ∧ r.2.all (fun e => !e.isRateCheck) = true := by
  decide

/-- Claim C6: `RoomService.joinRoom` is idempotent — when a membership row for
(user, room) exists, it is returned unchanged (same id, role, joinedAt) with
the database untouched and no error; and joining a nonexistent room as a
non-member fails with `Room not found`. -/
theorem c6_idempotent_join (db : ChatDB) (u r role : String) (now : Nat)
    (m : RoomMembership) (hm : findUserMembership db u r = some m)
    (db2 : ChatDB) (u2 r2 role2 : String) (now2 : Nat)
    (hnm : findUserMembership db2 u2 r2 = none)
    (hr : db2.rooms.find? (fun x => x.id == r2) = none) :
    joinRoom db u r role now = .ok (m, db)
      ∧ joinRoom db2 u2 r2 role2 now2 = .error "Room not found" := by
  constructor
  · simp [joinRoom, hm]
  · simp [joinRoom, hnm, hr]

/-- Concrete instance of claim C6: `u1` rejoining `general` gets the original
owner membership back with the database unchanged, and joining the missing
room `nosuch` fails with `Room not found`. -/
theorem c6_idempotent_join_witness :
    joinRoom sampleDb "u1" "general" "member" 9
        = .ok (⟨1, "u1", "general", "owner", 0, none, true⟩, sampleDb)
      ∧ joinRoom sampleDb "u1" "nosuch" "member" 9 = .error "Room not found" :=
  c6_idempotent_join sampleDb "u1" "general" "member" 9
    ⟨1, "u1", "general", "owner", 0, none, true⟩ (by decide)
    sampleDb "u1" "nosuch" "member" 9 (by decide) (by decide)

/-- Claim C8: a `send_message` by a non-member that passes the rate limiter
and the missing-field check is stopped by `validateUserInRoom`: the sender
receives exactly a `send_message_error` whose message indicates
non-membership, and neither a `message_received` fan-out nor a message insert
happens. -/
theorem c8_nonmember_send (st : WSState) (sock : SocketInfo)
    (roomId content mtype metadata : String) (now : Nat) (insertOk : Bool)
    (hallow : (rateStep st.rateLimits sock.id "send_message" now).1 = true)
    (hroom : roomId ≠ "") (hcontent : content ≠ "")
    (hnm : findUserMembership st.db sock.userId roomId = none) :
    (handleSendMessage st sock roomId content mtype metadata now insertOk).2
        = [.rateCheck "send_message" true,
           .sendMessageError "send_failed" "User is not a member of this room"]
      ∧ (handleSendMessage st sock roomId content mtype metadata now insertOk).1.db
          = st.db := by
  have h1 : (roomId == "") = false := beq_eq_false_iff_ne.mpr hroom
  have h2 : (content == "") = false := beq_eq_false_iff_ne.mpr hcontent
  unfold handleSendMessage createMessage
  simp [hallow, h1, h2, hnm]

/-- Concrete instance of claim C8: non-member `u9` sending to `general` gets
the membership error and the database is untouched. -/
theorem c8_nonmember_send_witness :
    (handleSendMessage ⟨sampleDb, [], [], []⟩ ⟨"s9", "u9", "mallory"⟩ "general" "x" "text" "" 0 true).2
        = [.rateCheck "send_message" true,
           .sendMessageError "send_failed" "User is not a member of this room"]
      ∧ (handleSendMessage ⟨sampleDb, [], [], []⟩ ⟨"s9", "u9", "mallory"⟩ "general" "x" "text" "" 0 true).1.db
          = sampleDb :=
  c8_nonmember_send ⟨sampleDb, [], [], []⟩ ⟨"s9", "u9", "mallory"⟩ "general" "x" "text" "" 0 true
    (by decide) (by decide) (by decide) (by decide)

/-- Claim C9: in the effect sequence of `handleDisconnection`, any `user_left`
emission is strictly preceded by the removal of the user's presence record:
whenever the trace splits around a `user_left`, the presence deletion lies in
the prefix. -/
theorem c9_presence_before_user_left (st : WSState) (sock : SocketInfo)
    (l1 l2 : List Effect) (r u : String)
    (h : (handleDisconnection st sock).2 = l1 ++ Effect.userLeft r u :: l2) :
    Effect.redisRemovePresence sock.userId ∈ l1 := by
  unfold handleDisconnection at h
  cases l1 with
  | nil => simp at h
  | cons a t =>
      simp only [List.cons_append] at h
      injection h with h1 _
      rw [← h1]
      exact List.mem_cons_self _ _

/-- Concrete instance of claim C9: for `u1` leaving `general`, the presence
removal indeed sits in the prefix before `user_left`. -/
theorem c9_presence_before_user_left_witness :
    Effect.redisRemovePresence "u1"
      ∈ [Effect.redisRemovePresence "u1", Effect.redisRemoveUserFromRoom "u1" "general"] :=
  c9_presence_before_user_left ⟨sampleDb, [], [], []⟩ ⟨"s1", "u1", "alice"⟩
    [Effect.redisRemovePresence "u1", Effect.redisRemoveUserFromRoom "u1" "general"]
    [Effect.redisRemoveSession "s1"] "general" "u1" (by decide)

/-- Claim C10: a successful `deleteMessage(messageId, userId)` is a soft
delete.  The row count is preserved; some row of the same room still carries
the message's id, room, author and creation time, but with content
`[Message deleted]`, type `system` and a set `editedAt`; and every row with a
different id is untouched — so the message still shows up in history reads of
its room. -/
theorem c10_soft_delete (db : ChatDB) (mid : Nat) (u : String) (now : Nat)
    (m : MessageRow)
    (hfind : db.messages.find? (fun x => x.id == mid) = some m)
    (hown : m.userId = u) :
    ∃ db2, deleteMessage db mid u false now = .ok db2
      ∧ db2.messages.length = db.messages.length
      ∧ (∃ x, x ∈ db2.messages.filter (fun y => y.roomId == m.roomId)
            ∧ x.id = m.id ∧ x.roomId = m.roomId ∧ x.userId = m.userId
            ∧ x.createdAt = m.createdAt
            ∧ x.content = "[Message deleted]" ∧ x.mtype = "system"
            ∧ x.editedAt = some now)
      ∧ ∀ x ∈ db.messages, x.id ≠ mid → x ∈ db2.messages := by
  have hmem : m ∈ db.messages := List.mem_of_find?_eq_some hfind
  have hid : (m.id == mid) = true := by
    have h0 := List.find?_some hfind
    simpa using h0
  have hdel : deleteMessage db mid u false now
      = .ok { db with messages := db.messages.map (fun x =>
          if x.id == mid then
            { x with content := "[Message deleted]", mtype := "system", editedAt := some now }
          else x) } := by
    simp [deleteMessage, hfind, hown]
  refine ⟨_, hdel, by simp, ?_, ?_⟩
  · refine ⟨{ m with content := "[Message deleted]", mtype := "system", editedAt := some now },
      ?_, by simp, by simp, by simp, by simp, by simp, by simp, by simp⟩
    apply List.mem_filter.mpr
    refine ⟨?_, by simp⟩
    have hx := List.mem_map_of_mem
      (f := fun x => if x.id == mid then
        { x with content := "[Message deleted]", mtype := "system", editedAt := some now }
      else x) hmem
    simpa [hid] using hx
  · intro x hx hne
    have hxid : (x.id == mid) = false := beq_eq_false_iff_ne.mpr hne
    have hx2 := List.mem_map_of_mem
      (f := fun y => if y.id == mid then
        { y with content := "[Message deleted]", mtype := "system", editedAt := some now }
      else y) hx
    simpa [hxid] using hx2

/-- Concrete instance of claim C10: deleting message 1 of `sampleDb` keeps a
`system`-typed `[Message deleted]` row with the original id, room, author and
creation time. -/
theorem c10_soft_delete_witness :
    ∃ db2, deleteMessage sampleDb 1 "u1" false 99 = .ok db2
      ∧ db2.messages.length = sampleDb.messages.length
      ∧ (∃ x, x ∈ db2.messages.filter (fun y => y.roomId == "general")
            ∧ x.id = 1 ∧ x.roomId = "general" ∧ x.userId = "u1"
            ∧ x.createdAt = 0
            ∧ x.content = "[Message deleted]" ∧ x.mtype = "system"
            ∧ x.editedAt = some 99)
      ∧ ∀ x ∈ sampleDb.messages, x.id ≠ 1 → x ∈ db2.messages :=
  c10_soft_delete sampleDb 1 "u1" 99 ⟨1, "general", "u1", "hi", "text", "", 0, none⟩
    (by decide) (by decide)

/-- Claim C1 as amended: every `start_typing` that passes the rate limiter and
carries a room id broadcasts `user_typing` to the room's other subscribers —
including repeats within the 3-second expiry window, which re-broadcast — and
upserts the typing entry with a refreshed expiry of 3000 ms from the signal. -/
theorem c1_typing_rebroadcast (st : WSState) (sock : SocketInfo) (roomId : String)
    (now : Nat)
    (hallow : (rateStep st.rateLimits sock.id "start_typing" now).1 = true)
    (hroom : roomId ≠ "") :
    (handleStartTyping st sock roomId now).2
        = [.rateCheck "start_typing" true, .userTyping roomId sock.userId sock.username]
      ∧ lookupTyping (handleStartTyping st sock roomId now).1.typingUsers roomId sock.userId
          = some ⟨sock.username, now + 3000⟩ := by
  have h1 : (roomId == "") = false := beq_eq_false_iff_ne.mpr hroom
  unfold handleStartTyping
  simp [hallow, h1, lookupTyping]

/-- Concrete instance of amended claim C1: a repeated `start_typing` at time
1000 on an entry created at time 0 re-broadcasts and refreshes the deadline
to 4000. -/
theorem c1_typing_rebroadcast_witness :
    (handleStartTyping (handleStartTyping ⟨emptyDb, [], [], []⟩ ⟨"s1", "u1", "alice"⟩ "room1" 0).1
        ⟨"s1", "u1", "alice"⟩ "room1" 1000).2
        = [.rateCheck "start_typing" true, .userTyping "room1" "u1" "alice"]
      ∧ lookupTyping (handleStartTyping
            (handleStartTyping ⟨emptyDb, [], [], []⟩ ⟨"s1", "u1", "alice"⟩ "room1" 0).1
            ⟨"s1", "u1", "alice"⟩ "room1" 1000).1.typingUsers "room1" "u1"
          = some ⟨"alice", 4000⟩ :=
  c1_typing_rebroadcast (handleStartTyping ⟨emptyDb, [], [], []⟩ ⟨"s1", "u1", "alice"⟩ "room1" 0).1
    ⟨"s1", "u1", "alice"⟩ "room1" 1000 (by decide) (by decide)

/-- Claim C2 as amended: when durable persistence of an accepted send fails,
the message is NOT fanned out — the handler's catch block emits only the hard
`send_message_error{send_failed}` to the sender, and the database is left
unchanged. -/
theorem c2_no_fanout_on_persist_failure (st : WSState) (sock : SocketInfo)
    (roomId content mtype metadata : String) (now : Nat) (m : RoomMembership)
    (hallow : (rateStep st.rateLimits sock.id "send_message" now).1 = true)
    (hroom : roomId ≠ "") (hcontent : content ≠ "")
    (hm : findUserMembership st.db sock.userId roomId = some m) :
    (handleSendMessage st sock roomId content mtype metadata now false).2
        = [.rateCheck "send_message" true, .sendMessageError "send_failed" "insert failed"]
      ∧ (handleSendMessage st sock roomId content mtype metadata now false).1.db
          = st.db := by
  have h1 : (roomId == "") = false := beq_eq_false_iff_ne.mpr hroom
  have h2 : (content == "") = false := beq_eq_false_iff_ne.mpr hcontent
  unfold handleSendMessage createMessage
  simp [hallow, h1, h2, hm]

/-- Concrete instance of amended claim C2: member `u1`'s send with a failing
insert produces only the hard error and no fan-out. -/
theorem c2_no_fanout_on_persist_failure_witness :
    (handleSendMessage ⟨sampleDb, [], [], []⟩ ⟨"s1", "u1", "alice"⟩ "general" "hi" "text" "" 5 false).2
        = [.rateCheck "send_message" true, .sendMessageError "send_failed" "insert failed"]
      ∧ (handleSendMessage ⟨sampleDb, [], [], []⟩ ⟨"s1", "u1", "alice"⟩ "general" "hi" "text" "" 5 false).1.db
          = sampleDb :=
  c2_no_fanout_on_persist_failure ⟨sampleDb, [], [], []⟩ ⟨"s1", "u1", "alice"⟩
    "general" "hi" "text" "" 5 ⟨1, "u1", "general", "owner", 0, none, true⟩
    (by decide) (by decide) (by decide) (by decide)

/-- Claim C3 as amended: the disconnect teardown removes every typing entry
owned by the disconnecting user (in every room), but it broadcasts no
`user_stopped_typing` event — the timers are cleared silently. -/
theorem c3_disconnect_silent_typing_cleanup (st : WSState) (sock : SocketInfo) :
    (handleDisconnection st sock).1.typingUsers.find? (fun e => e.1.2 == sock.userId) = none
      ∧ (handleDisconnection st sock).2.all (fun e => !e.isUserStoppedTyping) = true := by
  constructor
  · apply List.find?_eq_none.mpr
    intro e he
    have h2 := (List.mem_filter.mp he).2
    simpa using h2
  · simp only [handleDisconnection, List.all_eq_true]
    intro e he
    rcases List.mem_append.mp he with h | h
    · rcases List.mem_cons.mp h with h | h
      · simp [h, Effect.isUserStoppedTyping]
      · rcases List.mem_flatMap.mp h with ⟨r, _, hr⟩
        rcases List.mem_cons.mp hr with h3 | h3
        · simp [h3, Effect.isUserStoppedTyping]
        · rcases List.mem_cons.mp h3 with h4 | h4
          · simp [h4, Effect.isUserStoppedTyping]
          · simp at h4
    · simp at h
      simp [h, Effect.isUserStoppedTyping]

/-- Claim C4 as amended: only the disconnect teardown removes the presence
record (so "no record" means offline there), while a client `update_presence`
with status `offline` writes a presence record whose status field is
`offline`, with a refreshed 30 s TTL. -/
theorem c4_offline_representation (st : WSState) (sock : SocketInfo)
    (cur : Option String) (now : Nat)
    (hallow : (rateStep st.rateLimits sock.id "update_presence" now).1 = true) :
    lookupPresence (handleDisconnection st sock).1.presence sock.userId = none
      ∧ lookupPresence (handleUpdatePresence st sock "offline" cur now).1.presence sock.userId
          = some (⟨sock.userId, "offline", cur, now, sock.id⟩, now + 30000) := by
  constructor
  · apply Option.map_eq_none.mpr
    apply List.find?_eq_none.mpr
    intro e he
    have h2 := (List.mem_filter.mp he).2
    simpa using h2
  · unfold handleUpdatePresence
    simp [hallow, setUserPresence, lookupPresence]

/-- Concrete instance of amended claim C4: after `u1` disconnects no record
remains, and after `update_presence{offline}` at time 7 a record with status
`offline` and expiry 30007 exists. -/
theorem c4_offline_representation_witness :
    lookupPresence (handleDisconnection ⟨sampleDb, [], [], []⟩ ⟨"s1", "u1", "alice"⟩).1.presence "u1"
        = none
      ∧ lookupPresence (handleUpdatePresence ⟨sampleDb, [], [], []⟩ ⟨"s1", "u1", "alice"⟩
            "offline" none 7).1.presence "u1"
          = some (⟨"u1", "offline", none, 7, "s1"⟩, 30007) :=
  c4_offline_representation ⟨sampleDb, [], [], []⟩ ⟨"s1", "u1", "alice"⟩ none 7 (by decide)

/-- Helper: the first effect of `handleSendMessage` is always its rate
limiter consultation. -/
lemma sendMessage_head_rateCheck (st : WSState) (sock : SocketInfo)
    (roomId content mtype metadata : String) (now : Nat) (insertOk : Bool) :
    (handleSendMessage st sock roomId content mtype metadata now insertOk).2.head?
      = some (.rateCheck "send_message" (rateStep st.rateLimits sock.id "send_message" now).1) := by
  unfold handleSendMessage
  rcases h : (rateStep st.rateLimits sock.id "send_message" now).1 with _ | _
  · simp [h]
  · simp [h]
    split
    · simp
    · split <;> simp

/-- Helper: the first effect of `handleJoinRoom` is always its rate limiter
consultation. -/
lemma joinRoom_head_rateCheck (st : WSState) (sock : SocketInfo)
    (roomId : String) (now : Nat) :
    (handleJoinRoom st sock roomId now).2.head?
      = some (.rateCheck "join_room" (rateStep st.rateLimits sock.id "join_room" now).1) := by
  unfold handleJoinRoom
  rcases h : (rateStep st.rateLimits sock.id "join_room" now).1 with _ | _
  · simp [h]
  · simp [h]
    split
    · simp
    · split
      · simp
      · split <;> simp

/-- Helper: the first effect of `handleUpdatePresence` is always its rate
limiter consultation. -/
lemma updatePresence_head_rateCheck (st : WSState) (sock : SocketInfo)
    (status : String) (cur : Option String) (now : Nat) :
    (handleUpdatePresence st sock status cur now).2.head?
      = some (.rateCheck "update_presence" (rateStep st.rateLimits sock.id "update_presence" now).1) := by
  unfold handleUpdatePresence
  rcases h : (rateStep st.rateLimits sock.id "update_presence" now).1 with _ | _
  · simp [h]
  · simp [h]
    split <;> simp

/-- Helper: the first effect of `handleStartTyping` is always its rate
limiter consultation. -/
lemma startTyping_head_rateCheck (st : WSState) (sock : SocketInfo)
    (roomId : String) (now : Nat) :
    (handleStartTyping st sock roomId now).2.head?
      = some (.rateCheck "start_typing" (rateStep st.rateLimits sock.id "start_typing" now).1) := by
  unfold handleStartTyping
  rcases h : (rateStep st.rateLimits sock.id "start_typing" now).1 with _ | _
  · simp [h]
  · simp [h]
    split <;> simp

/-- Helper: `handleLeaveRoom` never consults the rate limiter. -/
lemma leaveRoom_no_rateCheck (st : WSState) (sock : SocketInfo) (roomId : String) :
    (handleLeaveRoom st sock roomId).2.all (fun e => !e.isRateCheck) = true := by
  unfold handleLeaveRoom
  split <;> [simp [Effect.isRateCheck];
    (split <;> simp [Effect.isRateCheck])]

/-- Helper: `handleEditMessage` never consults the rate limiter. -/
lemma editMessage_no_rateCheck (st : WSState) (sock : SocketInfo)
    (mid : Option Nat) (content : String) (now : Nat) :
    (handleEditMessage st sock mid content now).2.all (fun e => !e.isRateCheck) = true := by
  unfold handleEditMessage
  split <;> [simp [Effect.isRateCheck];
    (split <;> simp [Effect.isRateCheck])]

/-- Helper: `handleDeleteMessage` never consults the rate limiter. -/
lemma deleteMessage_no_rateCheck (st : WSState) (sock : SocketInfo)
    (mid : Option Nat) (now : Nat) :
    (handleDeleteMessage st sock mid now).2.all (fun e => !e.isRateCheck) = true := by
  unfold handleDeleteMessage
  split <;> [simp [Effect.isRateCheck];
    (split <;> [simp [Effect.isRateCheck]; (split <;> simp [Effect.isRateCheck])])]

/-- Claim C5 as amended: only `send_message`, `join_room`, `update_presence`
and `start_typing` consult the per-connection per-action rate limiter — and
they do so as their very first step — while `leave_room`, `edit_message` and
`delete_message` perform their work with no rate limiter consultation at
all. -/
theorem c5_rate_limiter_coverage (st : WSState) (sock : SocketInfo)
    (roomId content mtype metadata status : String) (cur : Option String)
    (mid : Option Nat) (now : Nat) (insertOk : Bool) :
    (handleSendMessage st sock roomId content mtype metadata now insertOk).2.head?
        = some (.rateCheck "send_message" (rateStep st.rateLimits sock.id "send_message" now).1)
      ∧ (handleJoinRoom st sock roomId now).2.head?
        = some (.rateCheck "join_room" (rateStep st.rateLimits sock.id "join_room" now).1)
      ∧ (handleUpdatePresence st sock status cur now).2.head?
        = some (.rateCheck "update_presence" (rateStep st.rateLimits sock.id "update_presence" now).1)
      ∧ (handleStartTyping st sock roomId now).2.head?
        = some (.rateCheck "start_typing" (rateStep st.rateLimits sock.id "start_typing" now).1)
      ∧ (handleLeaveRoom st sock roomId).2.all (fun e => !e.isRateCheck) = true
      ∧ (handleEditMessage st sock mid content now).2.all (fun e => !e.isRateCheck) = true
      ∧ (handleDeleteMessage st sock mid now).2.all (fun e => !e.isRateCheck) = true :=
  ⟨sendMessage_head_rateCheck st sock roomId content mtype metadata now insertOk,
   joinRoom_head_rateCheck st sock roomId now,
   updatePresence_head_rateCheck st sock status cur now,
   startTyping_head_rateCheck st sock roomId now,
   leaveRoom_no_rateCheck st sock roomId,
   editMessage_no_rateCheck st sock mid content now,
   deleteMessage_no_rateCheck st sock mid now⟩

/-- Helper: running the limiter for `send_message` from a window holding
count `c` (at most the threshold 30), over calls that all fall inside the
window, allows exactly the calls that keep the count below 30 and leaves the
count saturated at `min (c + number of calls) 30`. -/
lemma rateRun_send_window (sid : String) (R : Nat) (ts : List Nat) (c : Nat)
    (hc : c ≤ 30) (hts : ∀ t ∈ ts, t ≤ R) :
    rateRun [(sid ++ ":" ++ "send_message", ⟨c, R⟩)] sid "send_message" ts
      = ((List.range ts.length).map (fun i => decide (c + i < 30)),
         [(sid ++ ":" ++ "send_message", ⟨min (c + ts.length) 30, R⟩)]) := by
  induction ts generalizing c with
  | nil =>
      simp [rateRun, Nat.min_eq_left hc]
  | cons t ts ih =>
      have hT : t ≤ R := hts t (by simp)
      have hts2 : ∀ x ∈ ts, x ≤ R := fun x hx => hts x (by simp [hx])
      by_cases hc30 : c < 30
      · have hstep : rateStep [(sid ++ ":" ++ "send_message", ⟨c, R⟩)] sid "send_message" t
            = (true, [(sid ++ ":" ++ "send_message", ⟨c + 1, R⟩)]) := by
          simp [rateStep, lookupWindow, setWindow, actionLimits,
            Nat.not_lt.mpr hT, Nat.not_le.mpr hc30]
        simp only [rateRun, hstep]
        rw [ih (c + 1) (by omega) hts2]
        congr 1
        · simp only [List.length_cons, List.range_succ_eq_map, List.map_cons, List.map_map]
          congr 1
          · simp [hc30]
          · apply List.map_congr_left
            intro i _
            simp only [Function.comp_apply]
            apply decide_eq_decide.mpr
            omega
        · simp only [List.length_cons]
          rw [show c + 1 + ts.length = c + (ts.length + 1) by omega]
      · have hceq : c = 30 := by omega
        subst hceq
        have hstep : rateStep [(sid ++ ":" ++ "send_message", ⟨30, R⟩)] sid "send_message" t
            = (false, [(sid ++ ":" ++ "send_message", ⟨30, R⟩)]) := by
          simp [rateStep, lookupWindow, actionLimits, Nat.not_lt.mpr hT]
        simp only [rateRun, hstep]
        rw [ih 30 (by omega) hts2]
        congr 1
        · have htail : (List.range ts.length).map ((fun i => decide (30 + i < 30)) ∘ Nat.succ)
              = (List.range ts.length).map (fun i => decide (30 + i < 30)) := by
            apply List.map_congr_left
            intro i _
            simp only [Function.comp_apply]
            apply decide_eq_decide.mpr
            omega
          simp only [List.length_cons, List.range_succ_eq_map, List.map_cons, List.map_map, htail]
          norm_num
        · simp only [List.length_cons]
          rw [Nat.min_eq_right (by omega), Nat.min_eq_right (by omega)]

/-- Claim C7: within one 60 s window, the first 30 `send_message` actions of a
connection are allowed and the 31st is rejected; and a send arriving on a
saturated window produces exactly the `rate_limit_exceeded{retryAfter}` event
for the sender, with no message persisted and no fan-out. -/
theorem c7_send_rate_limit (sid : String) (t0 : Nat) (ts : List Nat)
    (hts : ∀ t ∈ ts, t ≤ t0 + 60000) (hlen : ts.length = 30)
    (st : WSState) (sock : SocketInfo) (hsock : sock.id = sid)
    (roomId content mtype metadata : String) (t2 : Nat) (ht2 : t2 ≤ t0 + 60000)
    (insertOk : Bool)
    (hst : st.rateLimits = [(sid ++ ":" ++ "send_message", ⟨30, t0 + 60000⟩)]) :
    (rateRun [] sid "send_message" (t0 :: ts)).1 = List.replicate 30 true ++ [false]
      ∧ (rateRun [] sid "send_message" (t0 :: ts)).2
          = [(sid ++ ":" ++ "send_message", ⟨30, t0 + 60000⟩)]
      ∧ (handleSendMessage st sock roomId content mtype metadata t2 insertOk).2
          = [.rateCheck "send_message" false, .rateLimitExceeded 60 "send_message"]
      ∧ (handleSendMessage st sock roomId content mtype metadata t2 insertOk).1.db.messages
          = st.db.messages := by
  have hstep0 : rateStep [] sid "send_message" t0
      = (true, [(sid ++ ":" ++ "send_message", ⟨1, t0 + 60000⟩)]) := by
    simp [rateStep, lookupWindow, setWindow]
  have hrun : rateRun [] sid "send_message" (t0 :: ts)
      = (true :: (List.range ts.length).map (fun i => decide (1 + i < 30)),
         [(sid ++ ":" ++ "send_message", ⟨min (1 + ts.length) 30, t0 + 60000⟩)]) := by
    simp only [rateRun, hstep0]
    rw [rateRun_send_window sid (t0 + 60000) ts 1 (by omega) hts]
  have hdeny : rateStep st.rateLimits sock.id "send_message" t2
      = (false, st.rateLimits) := by
    rw [hst, hsock]
    simp [rateStep, lookupWindow, actionLimits, Nat.not_lt.mpr ht2]
  refine ⟨?_, ?_, ?_, ?_⟩
  · rw [show (rateRun [] sid "send_message" (t0 :: ts)).1
        = true :: (List.range 30).map (fun i => decide (1 + i < 30)) by rw [hrun, hlen]]
    decide
  · rw [show (rateRun [] sid "send_message" (t0 :: ts)).2
        = [(sid ++ ":" ++ "send_message", ⟨min (1 + 30) 30, t0 + 60000⟩)] by rw [hrun, hlen]]
    norm_num
  · unfold handleSendMessage
    simp [hdeny]
  · unfold handleSendMessage
    simp [hdeny]

/-- Concrete instance of claim C7: 31 sends at time 0 through a fresh limiter
yield 30 allows then a deny, and a send on the saturated window emits exactly
the rate-limit event with no message stored. -/
theorem c7_send_rate_limit_witness :
    (rateRun [] "s1" "send_message" (0 :: List.replicate 30 0)).1
        = List.replicate 30 true ++ [false]
      ∧ (rateRun [] "s1" "send_message" (0 :: List.replicate 30 0)).2
          = [("s1" ++ ":" ++ "send_message", ⟨30, 0 + 60000⟩)]
      ∧ (handleSendMessage ⟨sampleDb, [], [], [("s1" ++ ":" ++ "send_message", ⟨30, 0 + 60000⟩)]⟩
            ⟨"s1", "u1", "alice"⟩ "general" "hi" "text" "" 0 true).2
          = [.rateCheck "send_message" false, .rateLimitExceeded 60 "send_message"]
      ∧ (handleSendMessage ⟨sampleDb, [], [], [("s1" ++ ":" ++ "send_message", ⟨30, 0 + 60000⟩)]⟩
            ⟨"s1", "u1", "alice"⟩ "general" "hi" "text" "" 0 true).1.db.messages
          = sampleDb.messages :=
  c7_send_rate_limit "s1" 0 (List.replicate 30 0) (by decide) (by decide)
    ⟨sampleDb, [], [], [("s1" ++ ":" ++ "send_message", ⟨30, 0 + 60000⟩)]⟩
    ⟨"s1", "u1", "alice"⟩ rfl "general" "hi" "text" "" 0 (by omega) true rfl

end Chat
